import Mathlib

/-!
Verification of the Canon R5 driver suite core: a shallow embedding of the
PTP transaction engine (`canon_r5_ptp_command`), the storage volume manager
(`canon_r5_storage_mount_card` / `unmount_card` / `format_card`), the object
store file operations (`read_file` / `write_file` / `delete_file`), the
background cache-cleanup task, and the LRU content cache, together with
theorems settling the specification's claims about them.

Machine integers are modelled as `Nat` with explicit reduction modulo `2^32`
where the C code's `u32` wraparound matters.  The USB transport is modelled
as an oracle (`PtpTransport`) giving the result of each successive
`canon_r5_usb_bulk_send` and of the single `canon_r5_usb_bulk_receive`; the
sequence of transport operations actually performed by a call is recorded in
an event trace.
-/

/-! ### Errno and protocol constants (from the C sources) -/

def EIO_errno : Int := 5
def ENOMEM : Int := 12
def EFAULT : Int := 14
def ENODEV : Int := 19
def EINVAL : Int := 22
def EROFS : Int := 30
def EPROTO : Int := 71
def ENOTCONN : Int := 107

def PTP_CONTAINER_COMMAND : Nat := 0x0001
def PTP_CONTAINER_DATA : Nat := 0x0002
def PTP_CONTAINER_RESPONSE : Nat := 0x0003
def PTP_OP_OPEN_SESSION : Nat := 0x1002
def PTP_RC_OK : Nat := 0x2001

/-- `2^32`: the modulus of the C `u32` type. -/
def U32_MOD : Nat := 2 ^ 32

/-! ### PTP transaction engine (src/unnamed/part_002, `canon_r5_ptp_command`) -/

/-- A PTP wire container (`struct ptp_container`): 4-byte length, 2-byte type,
2-byte code, 4-byte transaction id, up to five 4-byte parameters.  The packed
C struct is 32 bytes; its fixed header is 12 bytes. -/
structure PtpContainer where
  length : Nat
  ctype : Nat
  code : Nat
  trans_id : Nat
  params : List Nat
  deriving DecidableEq

/-- `build_ptp_container`: length = sizeof(container) - sizeof(params)
+ param_count * 4 = 12 + 4 * param_count; copies `min param_count 5`
parameters. -/
def build_ptp_container (ctype code trans_id : Nat) (params : List Nat)
    (param_count : Nat) : PtpContainer :=
  { length := 12 + 4 * param_count
    ctype := ctype
    code := code
    trans_id := trans_id
    params := params.take (min param_count 5) }

/-- The PTP per-device state (`struct canon_r5_ptp`): the session flag and the
`u32` transaction counter. -/
structure PtpState where
  session_open : Bool
  transaction_id : Nat
  deriving DecidableEq

/-- PTP state established by `canon_r5_device_alloc`
(src/drivers/core/canon-r5-core.c): `transaction_id = 1`,
`session_open = false`. -/
def initPtpState : PtpState :=
  { session_open := false, transaction_id := 1 }

/-- Transport oracle: result of the i-th `canon_r5_usb_bulk_send` of the call
(0 = success), and the result, actual length and container delivered by
`canon_r5_usb_bulk_receive`. -/
structure PtpTransport where
  sendRes : Nat → Int
  recvRes : Int
  recvLen : Nat
  recvCont : PtpContainer

/-- One transport exchange performed by a `canon_r5_ptp_command` call. -/
inductive PtpEvent where
  | send
  | recv
  deriving DecidableEq

/-- Outcome of a `canon_r5_ptp_command` call: the returned errno (0 on
success), the value stored through `*response_code` (`none` when the call
returns without writing it), the command container sent (`none` when the
session gate rejected the call), the updated device PTP state, and the trace
of transport operations performed. -/
structure PtpResult where
  ret : Int
  responseCode : Option Nat
  sentCmd : Option PtpContainer
  state : PtpState
  trace : List PtpEvent
  deriving DecidableEq

/-- The receive-and-validate tail of `canon_r5_ptp_command` (part_002 lines
107-142): receive a response container, check the actual length against the
12-byte fixed header, the container type against `PTP_CONTAINER_RESPONSE`,
and the transaction id against the one just sent; each failure yields
`-EPROTO` without writing `*response_code`; otherwise `*response_code` is
written and the return value is 0 iff the code is `PTP_RC_OK`. -/
def ptpReceivePhase (tr : PtpTransport) (trans_id : Nat) :
    Int × Option Nat :=
  if tr.recvRes ≠ 0 then
    (tr.recvRes, none)
  else if tr.recvLen < 12 then
    (-EPROTO, none)
  else if tr.recvCont.ctype ≠ PTP_CONTAINER_RESPONSE then
    (-EPROTO, none)
  else if tr.recvCont.trans_id ≠ trans_id then
    (-EPROTO, none)
  else
    ((if tr.recvCont.code = PTP_RC_OK then 0 else -EIO_errno), some tr.recvCont.code)

/-- `canon_r5_ptp_command` (src/unnamed/part_002 lines 46-143).  The `dev` and
`response_code` null checks are outside the model (both are non-null in every
modelled call).  `hasData` models `data != NULL`; the data phase runs when
`data && data_len > 0`, performing two further sends (data header, payload).
The transaction id is allocated (`trans_id = dev->ptp.transaction_id++`,
a `u32` post-increment) only after the session gate passes. -/
def canon_r5_ptp_command (st : PtpState) (tr : PtpTransport) (code : Nat)
    (params : List Nat) (param_count : Nat) (hasData : Bool) (data_len : Nat) :
    PtpResult :=
  if ¬ st.session_open ∧ code ≠ PTP_OP_OPEN_SESSION then
    { ret := -ENOTCONN, responseCode := none, sentCmd := none,
      state := st, trace := [] }
  else
    let trans_id := st.transaction_id
    let st1 : PtpState :=
      { st with transaction_id := (st.transaction_id + 1) % U32_MOD }
    let cmd := build_ptp_container PTP_CONTAINER_COMMAND code trans_id
      params param_count
    let tail : Int × Option Nat × List PtpEvent :=
      if tr.sendRes 0 ≠ 0 then
        (tr.sendRes 0, none, [.send])
      else if hasData ∧ data_len > 0 then
        if tr.sendRes 1 ≠ 0 then
          (tr.sendRes 1, none, [.send, .send])
        else if tr.sendRes 2 ≠ 0 then
          (tr.sendRes 2, none, [.send, .send, .send])
        else
          let r := ptpReceivePhase tr trans_id
          (r.1, r.2, [.send, .send, .send, .recv])
      else
        let r := ptpReceivePhase tr trans_id
        (r.1, r.2, [.send, .recv])
    { ret := tail.1, responseCode := tail.2.1, sentCmd := some cmd,
      state := st1, trace := tail.2.2 }

/-! ### Transaction-id sequence of a device -/

/-- A fixed successful transport used to drive the transaction-id sequence.
The state evolution of `canon_r5_ptp_command` does not depend on the
transport's content. -/
def seqTransport : PtpTransport :=
  { sendRes := fun _ => 0, recvRes := 0, recvLen := 32,
    recvCont := { length := 12, ctype := PTP_CONTAINER_RESPONSE,
                  code := PTP_RC_OK, trans_id := 1, params := [] } }

/-- Device PTP state after `n` gate-passing `canon_r5_ptp_command` calls
(each an open-session command, which always passes the session gate),
starting from the state left by `canon_r5_device_alloc`. -/
def ptpStateAfter : Nat → PtpState
  | 0 => initPtpState
  | n + 1 => (canon_r5_ptp_command (ptpStateAfter n) seqTransport
      PTP_OP_OPEN_SESSION [1] 1 false 0).state

/-- The transaction id placed in the command container by the (n+1)-st
gate-passing call of the sequence. -/
def issuedTransId (n : Nat) : Option Nat :=
  ((canon_r5_ptp_command (ptpStateAfter n) seqTransport PTP_OP_OPEN_SESSION
      [1] 1 false 0).sentCmd).map PtpContainer.trans_id

lemma ptp_command_gate_pass (st : PtpState) (tr : PtpTransport) (code : Nat)
    (params : List Nat) (pc : Nat) (hd : Bool) (dlen : Nat)
    (h : st.session_open = true ∨ code = PTP_OP_OPEN_SESSION) :
    (canon_r5_ptp_command st tr code params pc hd dlen).sentCmd
      = some (build_ptp_container PTP_CONTAINER_COMMAND code
          st.transaction_id params pc) ∧
    (canon_r5_ptp_command st tr code params pc hd dlen).state
      = { st with transaction_id := (st.transaction_id + 1) % U32_MOD } := by
  have hg : ¬ (¬ st.session_open ∧ code ≠ PTP_OP_OPEN_SESSION) := by
    rcases h with h | h <;> simp [h]
  unfold canon_r5_ptp_command
  rw [if_neg hg]
  exact ⟨rfl, rfl⟩

lemma one_lt_u32 : 1 < U32_MOD := by norm_num [U32_MOD]

lemma ptpStateAfter_closed (n : Nat) :
    ptpStateAfter n
      = { session_open := false, transaction_id := (1 + n) % U32_MOD } := by
  induction n with
  | zero =>
      have h1 : (1 : Nat) % U32_MOD = 1 := Nat.mod_eq_of_lt one_lt_u32
      simp [ptpStateAfter, initPtpState, h1]
  | succ n ih =>
      have h1 : (1 : Nat) % U32_MOD = 1 := Nat.mod_eq_of_lt one_lt_u32
      rw [ptpStateAfter,
        (ptp_command_gate_pass _ _ _ _ _ _ _ (Or.inr rfl)).2, ih]
      refine congrArg (fun t => PtpState.mk false t) ?_
      calc ((1 + n) % U32_MOD + 1) % U32_MOD
          = ((1 + n) % U32_MOD + 1 % U32_MOD) % U32_MOD := by rw [h1]
        _ = (1 + n + 1) % U32_MOD := (Nat.add_mod _ _ _).symm
        _ = (1 + (n + 1)) % U32_MOD := by congr 1

lemma issuedTransId_closed (n : Nat) :
    issuedTransId n = some ((1 + n) % U32_MOD) := by
  unfold issuedTransId
  rw [(ptp_command_gate_pass _ _ _ _ _ _ _ (Or.inr rfl)).1, ptpStateAfter_closed]
  rfl

/-- C1 is refuted by the code: the transaction counter is the C `u32`
`dev->ptp.transaction_id`, which wraps modulo `2^32`.  In the gate-passing
call sequence of a single attached device, the id issued by call 0 is 1 and
is issued again by call `2^32` (reuse), and the id issued by call `2^32 - 1`
is 0, not one greater than the `2^32 - 1` issued by the preceding call. -/
theorem C1_counterexample :
    issuedTransId 0 = some 1 ∧
    issuedTransId (2 ^ 32) = some 1 ∧
    issuedTransId (2 ^ 32 - 2) = some (2 ^ 32 - 1) ∧
    issuedTransId (2 ^ 32 - 1) = some 0 := by
  refine ⟨?_, ?_, ?_, ?_⟩ <;>
    rw [issuedTransId_closed] <;> norm_num [U32_MOD]

/-- C1 (amended): for every gate-passing call, the transaction id placed in
the command container is the device's current counter, and the counter
advances by exactly 1 modulo `2^32`; in the call sequence of a device, the
first id issued after allocation is 1, the id of call `n` is
`(1 + n) % 2^32`, and no id is reused between two gate-passing calls fewer
than `2^32` apart.  (Ids do repeat every `2^32` calls, as the counterexample
shows.) -/
theorem C1_transaction_id_discipline (st : PtpState) (tr : PtpTransport)
    (code : Nat) (params : List Nat) (pc : Nat) (hd : Bool) (dlen : Nat)
    (m n : Nat)
    (hgate : st.session_open = true ∨ code = PTP_OP_OPEN_SESSION)
    (hmn : m < n) (hwin : n - m < U32_MOD) :
    ((canon_r5_ptp_command st tr code params pc hd dlen).sentCmd).map
        PtpContainer.trans_id = some st.transaction_id ∧
    (canon_r5_ptp_command st tr code params pc hd dlen).state.transaction_id
      = (st.transaction_id + 1) % U32_MOD ∧
    issuedTransId 0 = some 1 ∧
    (∀ k, issuedTransId k = some ((1 + k) % U32_MOD)) ∧
    issuedTransId m ≠ issuedTransId n := by
  refine ⟨?_, ?_, ?_, issuedTransId_closed, ?_⟩
  · rw [(ptp_command_gate_pass st tr code params pc hd dlen hgate).1]
    rfl
  · rw [(ptp_command_gate_pass st tr code params pc hd dlen hgate).2]
  · rw [issuedTransId_closed]
    norm_num [U32_MOD]
  · rw [issuedTransId_closed, issuedTransId_closed]
    intro hEq
    have hmod : (1 + m) % U32_MOD = (1 + n) % U32_MOD :=
      Option.some.inj hEq
    have hdvd : U32_MOD ∣ (1 + n) - (1 + m) :=
      (Nat.modEq_iff_dvd' (by omega)).mp hmod
    have hle : U32_MOD ≤ (1 + n) - (1 + m) :=
      Nat.le_of_dvd (by omega) hdvd
    omega

/-- Witness for `C1_transaction_id_discipline` at the freshly allocated
device state, with `m = 1`, `n = 2`. -/
theorem C1_transaction_id_discipline_witness :
    ((canon_r5_ptp_command initPtpState seqTransport PTP_OP_OPEN_SESSION
        [1] 1 false 0).sentCmd).map PtpContainer.trans_id
      = some initPtpState.transaction_id ∧
    (canon_r5_ptp_command initPtpState seqTransport PTP_OP_OPEN_SESSION
        [1] 1 false 0).state.transaction_id
      = (initPtpState.transaction_id + 1) % U32_MOD ∧
    issuedTransId 0 = some 1 ∧
    (∀ k, issuedTransId k = some ((1 + k) % U32_MOD)) ∧
    issuedTransId 1 ≠ issuedTransId 2 :=
  C1_transaction_id_discipline initPtpState seqTransport PTP_OP_OPEN_SESSION
    [1] 1 false 0 1 2 (Or.inr rfl) (by norm_num) (by norm_num [U32_MOD])

/-- C2: a `canon_r5_ptp_command` call for an operation other than
open-session, made while the PTP session is not open, returns `-ENOTCONN`,
writes no response code, sends no command container, leaves the PTP state
unchanged, and performs no transport send or receive (empty trace). -/
theorem C2_closed_session_rejected (st : PtpState) (tr : PtpTransport)
    (code : Nat) (params : List Nat) (pc : Nat) (hd : Bool) (dlen : Nat)
    (hclosed : st.session_open = false) (hcode : code ≠ PTP_OP_OPEN_SESSION) :
    canon_r5_ptp_command st tr code params pc hd dlen =
      { ret := -ENOTCONN, responseCode := none, sentCmd := none,
        state := st, trace := [] } := by
  unfold canon_r5_ptp_command
  rw [if_pos ⟨by simp [hclosed], hcode⟩]

/-- Witness for `C2_closed_session_rejected`: a get-device-info command
(0x1001) on a freshly allocated device. -/
theorem C2_closed_session_rejected_witness :
    canon_r5_ptp_command initPtpState seqTransport 0x1001 [] 0 false 0 =
      { ret := -ENOTCONN, responseCode := none, sentCmd := none,
        state := initPtpState, trace := [] } :=
  C2_closed_session_rejected initPtpState seqTransport 0x1001 [] 0 false 0
    rfl (by decide)

lemma ptpReceivePhase_framing_bad (tr : PtpTransport) (tid : Nat)
    (hrecv : tr.recvRes = 0)
    (hbad : tr.recvLen < 12 ∨ tr.recvCont.ctype ≠ PTP_CONTAINER_RESPONSE ∨
        tr.recvCont.trans_id ≠ tid) :
    ptpReceivePhase tr tid = (-EPROTO, none) := by
  unfold ptpReceivePhase
  rw [if_neg (by simp [hrecv])]
  split_ifs with h1 h2 h3 h4 <;>
    first
      | rfl
      | (rcases hbad with h | h | h <;> simp_all)

/-- C3: in a gate-passing `canon_r5_ptp_command` call whose transport sends
and receive succeed, if the received container is shorter than the 12-byte
fixed header, or is not of type response, or carries a transaction id
different from the one just sent, then the call returns `-EPROTO`, writes
no response code to the caller, and its transport trace is exactly the
sends of the command (and optional data phase) followed by a single
receive — no retry and no further exchange. -/
theorem C3_framing_error_fatal (st : PtpState) (tr : PtpTransport)
    (code : Nat) (params : List Nat) (pc : Nat) (hd : Bool) (dlen : Nat)
    (hgate : st.session_open = true ∨ code = PTP_OP_OPEN_SESSION)
    (hsend : ∀ i, tr.sendRes i = 0) (hrecv : tr.recvRes = 0)
    (hbad : tr.recvLen < 12 ∨ tr.recvCont.ctype ≠ PTP_CONTAINER_RESPONSE ∨
        tr.recvCont.trans_id ≠ st.transaction_id) :
    (canon_r5_ptp_command st tr code params pc hd dlen).ret = -EPROTO ∧
    (canon_r5_ptp_command st tr code params pc hd dlen).responseCode
      = none ∧
    (canon_r5_ptp_command st tr code params pc hd dlen).trace =
      (if hd ∧ dlen > 0 then [.send, .send, .send] else [.send])
        ++ [.recv] := by
  have hg : ¬ (¬ st.session_open ∧ code ≠ PTP_OP_OPEN_SESSION) := by
    rcases hgate with h | h <;> simp [h]
  have hr := ptpReceivePhase_framing_bad tr st.transaction_id hrecv hbad
  unfold canon_r5_ptp_command
  rw [if_neg hg]
  by_cases hdl : hd = true ∧ dlen > 0
  · simp [hsend, hr, hdl]
  · simp [hsend, hr, hdl]

/-! ### Storage data model (src/unnamed/part_003 = canon-r5-storage.h) -/

/-- `enum canon_r5_storage_type`. -/
inductive StorageType where
  | none
  | cf_express
  | sd_card
  | internal
  deriving DecidableEq

/-- `enum canon_r5_storage_status` (EMPTY = 0). -/
inductive StorageStatus where
  | empty
  | inserted
  | mounted
  | error
  | write_protected
  | full
  deriving DecidableEq

/-- `enum canon_r5_file_type`. -/
inductive FileType where
  | unknown
  | jpeg
  | raw_cr3
  | raw_cr2
  | heif
  | mov
  | mp4
  | wav
  | folder
  deriving DecidableEq

/-- `struct canon_r5_storage_card` (the C field `type` is `card_type` here;
ktime values are modelled as `Int` nanoseconds). -/
structure StorageCard where
  slot_id : Int
  card_type : StorageType
  status : StorageStatus
  label : String
  serial_number : String
  total_capacity : Nat
  free_space : Nat
  write_speed : Nat
  read_speed : Nat
  filesystem : String
  cluster_size : Nat
  last_access : Int
  file_count : Nat
  folder_count : Nat
  write_protected : Bool
  needs_format : Bool
  deriving DecidableEq

/-- The all-zero `struct canon_r5_storage_card`, as produced by `memset 0`
(status EMPTY = 0, type NONE = 0, flags false, counters 0, strings empty). -/
def emptyCard : StorageCard :=
  { slot_id := 0, card_type := .none, status := .empty, label := "",
    serial_number := "", total_capacity := 0, free_space := 0,
    write_speed := 0, read_speed := 0, filesystem := "", cluster_size := 0,
    last_access := 0, file_count := 0, folder_count := 0,
    write_protected := false, needs_format := false }

/-- `struct canon_r5_storage_stats`. -/
structure StorageStats where
  files_read : Nat
  files_written : Nat
  bytes_read : Nat
  bytes_written : Nat
  cache_hits : Nat
  cache_misses : Nat
  ptp_operations : Nat
  ptp_errors : Nat
  last_operation : Int
  avg_read_speed : Nat
  avg_write_speed : Nat
  avg_response_time : Nat
  deriving DecidableEq

/-- The all-zero statistics record. -/
def zeroStats : StorageStats :=
  { files_read := 0, files_written := 0, bytes_read := 0, bytes_written := 0,
    cache_hits := 0, cache_misses := 0, ptp_operations := 0, ptp_errors := 0,
    last_operation := 0, avg_read_speed := 0, avg_write_speed := 0,
    avg_response_time := 0 }

/-- The parts of `struct canon_r5_storage_device` the claims are about: the
fixed two-slot card array (`CANON_R5_MAX_STORAGE_CARDS = 2`), the active-card
designation (`-1` = none), and the statistics block. -/
structure StorageDevice where
  cards0 : StorageCard
  cards1 : StorageCard
  active_card : Int
  stats : StorageStats
  deriving DecidableEq

/-- `storage->cards[slot]` for the two-slot array. -/
def StorageDevice.getCard (s : StorageDevice) (slot : Int) : StorageCard :=
  if slot = 0 then s.cards0 else s.cards1

/-- `storage->cards[slot] = c` for the two-slot array. -/
def StorageDevice.setCard (s : StorageDevice) (slot : Int) (c : StorageCard) :
    StorageDevice :=
  if slot = 0 then { s with cards0 := c } else { s with cards1 := c }

/-- `canon_r5_storage_slot_valid`: `slot >= 0 && slot < CANON_R5_MAX_STORAGE_CARDS`. -/
def canon_r5_storage_slot_valid (slot : Int) : Bool :=
  decide (0 ≤ slot) && decide (slot < 2)

/-- `canon_r5_storage_is_write_protected` (canon-r5-storage.c lines 730-737):
invalid slot reports protected; otherwise the card's write-protect flag or a
WRITE_PROTECTED status. -/
def canon_r5_storage_is_write_protected (s : StorageDevice) (slot : Int) :
    Bool :=
  if ¬ canon_r5_storage_slot_valid slot then true
  else
    (s.getCard slot).write_protected
      || decide ((s.getCard slot).status = StorageStatus.write_protected)

/-! ### Volume manager (canon-r5-storage.c lines 467-545) -/

/-- `canon_r5_storage_mount_card`: only valid from INSERTED; transitions to
MOUNTED, records the access time, and designates the slot active when no
card is active.  `now` models `ktime_get()`. -/
def canon_r5_storage_mount_card (s : StorageDevice) (slot : Int) (now : Int) :
    Int × StorageDevice :=
  if ¬ canon_r5_storage_slot_valid slot then (-EINVAL, s)
  else if (s.getCard slot).status ≠ StorageStatus.inserted then (-ENODEV, s)
  else
    let c := s.getCard slot
    let s1 := s.setCard slot { c with status := .mounted, last_access := now }
    let s2 := if s1.active_card < 0 then { s1 with active_card := slot } else s1
    (0, s2)

/-- `canon_r5_storage_unmount_card`: zeroes the slot's card record (the C
code sets status EMPTY and then `memset`s the whole struct) and clears the
active-card designation when it pointed at this slot.  Always returns 0 for
a valid slot. -/
def canon_r5_storage_unmount_card (s : StorageDevice) (slot : Int) :
    Int × StorageDevice :=
  if ¬ canon_r5_storage_slot_valid slot then (-EINVAL, s)
  else
    let s1 := s.setCard slot emptyCard
    let s2 := if s1.active_card = slot then { s1 with active_card := -1 } else s1
    (0, s2)

/-- `canon_r5_storage_format_card`: only valid from MOUNTED; issues a PTP
format command (result supplied by the `ptpRet` oracle) and on success resets
free space, file/folder counts and the needs-format flag. -/
def canon_r5_storage_format_card (s : StorageDevice) (slot : Int)
    (ptpRet : Int) : Int × StorageDevice :=
  if ¬ canon_r5_storage_slot_valid slot then (-EINVAL, s)
  else if (s.getCard slot).status ≠ StorageStatus.mounted then (-ENODEV, s)
  else if ptpRet ≠ 0 then (ptpRet, s)
  else
    let c := s.getCard slot
    (0, s.setCard slot
      { c with free_space := c.total_capacity, file_count := 0,
               folder_count := 0, needs_format := false })

/-- C7: `mount_card` on a valid slot whose status is not INSERTED fails with
`-ENODEV` and returns the device state entirely unchanged (in particular the
slot's card record and status); `format_card` on a valid slot whose status
is not MOUNTED fails the same way, also changing nothing. -/
theorem C7_mount_format_wrong_state (s : StorageDevice) (slot : Int)
    (now ptpRet : Int) (hv : canon_r5_storage_slot_valid slot = true) :
    ((s.getCard slot).status ≠ StorageStatus.inserted →
      canon_r5_storage_mount_card s slot now = (-ENODEV, s)) ∧
    ((s.getCard slot).status ≠ StorageStatus.mounted →
      canon_r5_storage_format_card s slot ptpRet = (-ENODEV, s)) := by
  constructor
  · intro h
    unfold canon_r5_storage_mount_card
    rw [if_neg (by simp [hv]), if_pos h]
  · intro h
    unfold canon_r5_storage_format_card
    rw [if_neg (by simp [hv]), if_pos h]

/-- A device with both slots empty, no active card, zeroed statistics. -/
def sampleDevice : StorageDevice :=
  { cards0 := emptyCard, cards1 := emptyCard, active_card := -1,
    stats := zeroStats }

/-- Witness for `C7_mount_format_wrong_state`: slot 0 of `sampleDevice` is
EMPTY, neither INSERTED nor MOUNTED. -/
theorem C7_mount_format_wrong_state_witness :
    canon_r5_storage_mount_card sampleDevice 0 5 = (-ENODEV, sampleDevice) ∧
    canon_r5_storage_format_card sampleDevice 0 0 = (-ENODEV, sampleDevice) :=
  ⟨(C7_mount_format_wrong_state sampleDevice 0 5 0 (by decide)).1 (by decide),
   (C7_mount_format_wrong_state sampleDevice 0 5 0 (by decide)).2 (by decide)⟩

/-- C8: for a valid slot, `unmount_card` returns success, leaves the slot's
card record in the zeroed EMPTY state, and makes the active-card designation
point elsewhere; a second immediate call also returns success and produces
the identical outcome — unmount is idempotent. -/
theorem C8_unmount_idempotent (s : StorageDevice) (slot : Int)
    (hv : canon_r5_storage_slot_valid slot = true) :
    (canon_r5_storage_unmount_card s slot).1 = 0 ∧
    ((canon_r5_storage_unmount_card s slot).2.getCard slot) = emptyCard ∧
    (canon_r5_storage_unmount_card s slot).2.active_card ≠ slot ∧
    (canon_r5_storage_unmount_card
      (canon_r5_storage_unmount_card s slot).2 slot).1 = 0 ∧
    canon_r5_storage_unmount_card
        (canon_r5_storage_unmount_card s slot).2 slot
      = canon_r5_storage_unmount_card s slot := by
  have h01 : slot = 0 ∨ slot = 1 := by
    simp [canon_r5_storage_slot_valid] at hv
    omega
  rcases h01 with h | h <;> subst h
  · by_cases hac : s.active_card = 0 <;>
      simp_all [canon_r5_storage_unmount_card, canon_r5_storage_slot_valid,
        StorageDevice.setCard, StorageDevice.getCard]
  · by_cases hac : s.active_card = 1 <;>
      simp_all [canon_r5_storage_unmount_card, canon_r5_storage_slot_valid,
        StorageDevice.setCard, StorageDevice.getCard]

/-- Witness for `C8_unmount_idempotent` at `sampleDevice`, slot 1. -/
theorem C8_unmount_idempotent_witness :
    (canon_r5_storage_unmount_card sampleDevice 1).1 = 0 ∧
    ((canon_r5_storage_unmount_card sampleDevice 1).2.getCard 1) = emptyCard ∧
    (canon_r5_storage_unmount_card sampleDevice 1).2.active_card ≠ 1 ∧
    (canon_r5_storage_unmount_card
      (canon_r5_storage_unmount_card sampleDevice 1).2 1).1 = 0 ∧
    canon_r5_storage_unmount_card
        (canon_r5_storage_unmount_card sampleDevice 1).2 1
      = canon_r5_storage_unmount_card sampleDevice 1 :=
  C8_unmount_idempotent sampleDevice 1 (by decide)

/-! ### File objects and the object-store operations
(canon-r5-storage.c lines 548-647) -/

/-- `struct canon_r5_file_object`: identity, metadata, the kref reference
count, and the cache state (`cached` flag, optional cache buffer modelled as
a byte list, and `cache_size`).  The `list`/`rb_node` intrusive links live in
`FsIndex` below. -/
structure FileObject where
  object_handle : Nat
  parent_handle : Nat
  filename : String
  file_type : FileType
  file_size : Nat
  creation_time : Int
  modification_time : Int
  storage_id : Int
  ref_count : Nat
  cached : Bool
  cache_data : Option (List Nat)
  cache_size : Nat
  deriving DecidableEq

/-- The suffix of a character list after its last `'.'`
(the `strrchr(filename, '.')` of `canon_r5_storage_detect_file_type`),
or `none` when no dot occurs. -/
def lastSuffixAfterDot : List Char → Option (List Char)
  | [] => none
  | c :: rest =>
    match lastSuffixAfterDot rest with
    | some r => some r
    | none => if c = '.' then some rest else none

/-- `canon_r5_storage_detect_file_type` (canon-r5-storage.c lines 113-137):
case-insensitive match of the extension after the last dot. -/
def canon_r5_storage_detect_file_type (filename : String) : FileType :=
  match lastSuffixAfterDot filename.toList with
  | none => .unknown
  | some ext =>
    let e := ext.map Char.toLower
    if e = "jpg".toList ∨ e = "jpeg".toList then .jpeg
    else if e = "cr3".toList then .raw_cr3
    else if e = "cr2".toList then .raw_cr2
    else if e = "heic".toList ∨ e = "heif".toList then .heif
    else if e = "mov".toList then .mov
    else if e = "mp4".toList then .mp4
    else if e = "wav".toList then .wav
    else .unknown

/-- Oracle for `canon_r5_ptp_get_object_data`: its return value and the
`bytes_read` it reports on success. -/
structure PtpReadOracle where
  ret : Int
  bytes : Nat
  deriving DecidableEq

/-- Outcome of `canon_r5_storage_read_file`: the errno, the bytes copied
into the caller's buffer on a cache hit, the reported `bytes_read`, whether
a PTP exchange was issued, and the (unchanged) file object and updated
statistics. -/
structure ReadFileResult where
  ret : Int
  out : List Nat
  bytes_read : Nat
  ptp_issued : Bool
  file : FileObject
  stats : StorageStats
  deriving DecidableEq

/-- `canon_r5_storage_read_file` (canon-r5-storage.c lines 548-578): on a
cache hit (`cached` flag set, cache buffer present, `offset` inside the
cached extent) copies `min size (cache_size - offset)` bytes out of the
cache buffer and bumps `cache_hits` — no PTP; otherwise issues
`canon_r5_ptp_get_object_data` and on success bumps the read statistics and
`cache_misses`.  The function never modifies the file object. -/
def canon_r5_storage_read_file (stats : StorageStats) (file : FileObject)
    (size : Nat) (offset : Nat) (ptp : PtpReadOracle) (now : Int) :
    ReadFileResult :=
  if file.cached ∧ file.cache_data.isSome ∧ offset < file.cache_size then
    let to_copy := min size (file.cache_size - offset)
    { ret := 0, out := ((file.cache_data.getD []).drop offset).take to_copy,
      bytes_read := to_copy, ptp_issued := false, file := file,
      stats := { stats with cache_hits := stats.cache_hits + 1 } }
  else if ptp.ret ≠ 0 then
    { ret := ptp.ret, out := [], bytes_read := 0, ptp_issued := true,
      file := file, stats := stats }
  else
    { ret := 0, out := [], bytes_read := ptp.bytes, ptp_issued := true,
      file := file,
      stats := { stats with
        files_read := stats.files_read + 1,
        bytes_read := stats.bytes_read + ptp.bytes,
        last_operation := now,
        cache_misses := stats.cache_misses + 1 } }

/-- C4: a `read_file` call on a cached object with the cache buffer present
and `offset` inside the cached extent returns bytes copied from the cache
buffer, issues no PTP operation, increments the cache-hit counter, and
leaves the file object unchanged; on a cache miss a PTP get-object-data
operation is issued and the file object is still unchanged — in particular
its `cached` flag and cache buffer are never set by `read_file`. -/
theorem C4_read_cache_semantics (stats : StorageStats) (file : FileObject)
    (size offset : Nat) (ptp : PtpReadOracle) (now : Int) :
    (∀ buf, file.cached = true → file.cache_data = some buf →
      offset < file.cache_size →
      (canon_r5_storage_read_file stats file size offset ptp now).ret = 0 ∧
      (canon_r5_storage_read_file stats file size offset ptp now).out
        = (buf.drop offset).take (min size (file.cache_size - offset)) ∧
      (canon_r5_storage_read_file stats file size offset ptp now).ptp_issued
        = false ∧
      (canon_r5_storage_read_file stats file size offset ptp now).stats.cache_hits
        = stats.cache_hits + 1 ∧
      (canon_r5_storage_read_file stats file size offset ptp now).file
        = file) ∧
    (¬ (file.cached = true ∧ file.cache_data.isSome = true ∧
        offset < file.cache_size) →
      (canon_r5_storage_read_file stats file size offset ptp now).ptp_issued
        = true ∧
      (canon_r5_storage_read_file stats file size offset ptp now).file
        = file) := by
  constructor
  · intro buf hc hd ho
    unfold canon_r5_storage_read_file
    rw [if_pos ⟨by simp [hc], by simp [hd], ho⟩]
    simp [hd]
  · intro hmiss
    unfold canon_r5_storage_read_file
    rw [if_neg (by simpa using hmiss)]
    by_cases hr : ptp.ret ≠ 0
    · rw [if_pos hr]
      exact ⟨rfl, rfl⟩
    · rw [if_neg hr]
      exact ⟨rfl, rfl⟩

/-- A concrete cached file object: handle 7, 4 cached bytes. -/
def sampleCachedFile : FileObject :=
  { object_handle := 7, parent_handle := 0, filename := "IMG_0007.CR3",
    file_type := .raw_cr3, file_size := 4, creation_time := 0,
    modification_time := 0, storage_id := 0, ref_count := 2, cached := true,
    cache_data := some [10, 11, 12, 13], cache_size := 4 }

/-- An uncached concrete file object. -/
def sampleUncachedFile : FileObject :=
  { sampleCachedFile with
    cached := false
    cache_data := none
    cache_size := 0 }

/-- Witness for `C4_read_cache_semantics`: a hit on `sampleCachedFile` at
offset 1 and a miss on `sampleUncachedFile`. -/
theorem C4_read_cache_semantics_witness :
    ((canon_r5_storage_read_file zeroStats sampleCachedFile 2 1 ⟨0, 0⟩ 0).ret
        = 0 ∧
      (canon_r5_storage_read_file zeroStats sampleCachedFile 2 1 ⟨0, 0⟩ 0).out
        = ([10, 11, 12, 13].drop 1).take
            (min 2 (sampleCachedFile.cache_size - 1)) ∧
      (canon_r5_storage_read_file zeroStats sampleCachedFile 2 1
          ⟨0, 0⟩ 0).ptp_issued = false ∧
      (canon_r5_storage_read_file zeroStats sampleCachedFile 2 1
          ⟨0, 0⟩ 0).stats.cache_hits = zeroStats.cache_hits + 1 ∧
      (canon_r5_storage_read_file zeroStats sampleCachedFile 2 1 ⟨0, 0⟩ 0).file
        = sampleCachedFile) ∧
    ((canon_r5_storage_read_file zeroStats sampleUncachedFile 2 1
        ⟨0, 3⟩ 0).ptp_issued = true ∧
      (canon_r5_storage_read_file zeroStats sampleUncachedFile 2 1
          ⟨0, 3⟩ 0).file = sampleUncachedFile) :=
  ⟨(C4_read_cache_semantics zeroStats sampleCachedFile 2 1 ⟨0, 0⟩ 0).1
      [10, 11, 12, 13] rfl rfl (by decide),
   (C4_read_cache_semantics zeroStats sampleUncachedFile 2 1 ⟨0, 3⟩ 0).2
      (by decide)⟩

/-- Oracle for `canon_r5_ptp_send_object_data`: its return value and the new
handle it reports on success. -/
structure PtpSendOracle where
  ret : Int
  new_handle : Nat
  deriving DecidableEq

/-- `canon_r5_storage_write_file` (canon-r5-storage.c lines 580-616): rejects
empty input, requires an active card, issues `canon_r5_ptp_send_object_data`,
and on success constructs a `kzalloc`ed file object for the new handle
(`wantNew` models a non-null `new_file` out-pointer, `allocOk` the
allocation succeeding; on allocation failure the C code still returns 0 with
`*new_file` left NULL) and bumps the write statistics.  The function
performs no write-protection check. -/
def canon_r5_storage_write_file (s : StorageDevice) (filename : String)
    (size : Nat) (wantNew allocOk : Bool) (ptp : PtpSendOracle) (now : Int) :
    Int × StorageDevice × Option FileObject :=
  if size = 0 then (-EINVAL, s, none)
  else if s.active_card < 0 then (-ENODEV, s, none)
  else if ptp.ret ≠ 0 then (ptp.ret, s, none)
  else
    let newFile : Option FileObject :=
      if wantNew ∧ allocOk then
        some { object_handle := ptp.new_handle, parent_handle := 0,
               filename := filename,
               file_type := canon_r5_storage_detect_file_type filename,
               file_size := size, creation_time := now,
               modification_time := now, storage_id := 0, ref_count := 1,
               cached := false, cache_data := none, cache_size := 0 }
      else none
    (0,
     { s with stats := { s.stats with
         files_written := s.stats.files_written + 1,
         bytes_written := s.stats.bytes_written + size,
         last_operation := now } },
     newFile)

/-- `canon_r5_fs_write` (canon-r5-filesystem.c lines 309-352), the
filesystem-bridge write path: rejects with `-EROFS` when the active volume
is write-protected, models `vmalloc`/`copy_from_user` by the
`vmallocOk`/`copyOk` oracles, and otherwise delegates to
`canon_r5_storage_write_file`.  The third component records whether the
delegation (and hence the send-object PTP exchange) happened. -/
def canon_r5_fs_write (s : StorageDevice) (filename : String) (count : Nat)
    (vmallocOk copyOk allocOk : Bool) (ptp : PtpSendOracle) (now : Int) :
    Int × StorageDevice × Bool :=
  if canon_r5_storage_is_write_protected s s.active_card then
    (-EROFS, s, false)
  else if ¬ vmallocOk then (-ENOMEM, s, false)
  else if ¬ copyOk then (-EFAULT, s, false)
  else
    let r := canon_r5_storage_write_file s filename count true allocOk ptp now
    if r.1 ≠ 0 then (r.1, r.2.1, true) else ((count : Int), r.2.1, true)

/-- A device whose active slot 0 is mounted and write-protected. -/
def wpDevice : StorageDevice :=
  { cards0 := { emptyCard with
      status := StorageStatus.mounted
      write_protected := true }
    cards1 := emptyCard
    active_card := 0
    stats := zeroStats }

/-- C5 fails on the code: `canon_r5_storage_write_file` performs no
write-protection check at all.  On `wpDevice`, whose active volume is
write-protected, a write of 4 bytes with a successful transport returns 0
and constructs a new file object. -/
theorem C5_counterexample :
    canon_r5_storage_is_write_protected wpDevice wpDevice.active_card
      = true ∧
    (canon_r5_storage_write_file wpDevice "a.jpg" 4 true true ⟨0, 9⟩ 0).1
      = 0 ∧
    ((canon_r5_storage_write_file wpDevice "a.jpg" 4 true true
        ⟨0, 9⟩ 0).2.2).isSome = true := by
  refine ⟨by decide, rfl, rfl⟩

/-- C5 (amended): `write_file` itself fails with `-ENODEV` (constructing no
object) when no volume is active, but performs no write-protection check;
the write-protection rejection lives one layer up in the filesystem-bridge
write path, which fails with `-EROFS` and never invokes the send-object
operation whenever `canon_r5_storage_is_write_protected` reports the active
volume protected. -/
theorem C5_write_protection_in_bridge (s : StorageDevice) (filename : String)
    (count : Nat) (vOk cOk aOk : Bool) (ptp : PtpSendOracle) (now : Int)
    (hwp : canon_r5_storage_is_write_protected s s.active_card = true) :
    canon_r5_fs_write s filename count vOk cOk aOk ptp now
      = (-EROFS, s, false) ∧
    (s.active_card < 0 → count ≠ 0 →
      canon_r5_storage_write_file s filename count true aOk ptp now
        = (-ENODEV, s, none)) := by
  constructor
  · unfold canon_r5_fs_write
    rw [if_pos (by simp [hwp])]
  · intro hneg hcz
    unfold canon_r5_storage_write_file
    rw [if_neg hcz, if_pos hneg]

/-- A write-protected device with no active volume. -/
def noActiveWpDevice : StorageDevice :=
  { wpDevice with active_card := -1 }

/-- Witness for `C5_write_protection_in_bridge` at `noActiveWpDevice`
(slot -1 is invalid, hence reported write-protected). -/
theorem C5_write_protection_in_bridge_witness :
    canon_r5_fs_write noActiveWpDevice "a.jpg" 4 true true true ⟨0, 9⟩ 0
      = (-EROFS, noActiveWpDevice, false) ∧
    (noActiveWpDevice.active_card < 0 → 4 ≠ 0 →
      canon_r5_storage_write_file noActiveWpDevice "a.jpg" 4 true true
          ⟨0, 9⟩ 0
        = (-ENODEV, noActiveWpDevice, none)) :=
  C5_write_protection_in_bridge noActiveWpDevice "a.jpg" 4 true true true
    ⟨0, 9⟩ 0 (by decide)

/-! ### Object index and delete (canon-r5-storage.c lines 618-647) -/

/-- The object-store index: the handles currently linked into the rb-tree
(`fs_info->file_tree`) and the handles linked into the recency list. -/
structure FsIndex where
  tree : List Nat
  lru : List Nat
  deriving DecidableEq

/-- `canon_r5_storage_delete_file`: issues a delete-object PTP command
(result via `ptpRet`); on success erases the object's node from the handle
tree (`rb_erase` guarded by `RB_EMPTY_NODE`) and unlinks it from the list
(`list_del_init`), and updates the last-operation statistic.  No reference
count is touched. -/
def canon_r5_storage_delete_file (idx : FsIndex) (file : FileObject)
    (ptpRet : Int) (stats : StorageStats) (now : Int) :
    Int × FsIndex × FileObject × StorageStats :=
  if ptpRet ≠ 0 then (ptpRet, idx, file, stats)
  else
    (0,
     { tree := idx.tree.erase file.object_handle
       lru := idx.lru.erase file.object_handle },
     file,
     { stats with last_operation := now })

/-- A one-entry index holding handle 7 in both structures. -/
def sampleIndex : FsIndex := { tree := [7], lru := [7] }

/-- C6 fails on the code: a successful `delete_file` removes the entry from
both the tree and the recency list, but never decrements the object's
reference count — `sampleCachedFile` enters with `ref_count = 2` and leaves
with `ref_count = 2`, not 1. -/
theorem C6_counterexample :
    (canon_r5_storage_delete_file sampleIndex sampleCachedFile 0 zeroStats
        1).1 = 0 ∧
    (canon_r5_storage_delete_file sampleIndex sampleCachedFile 0 zeroStats
        1).2.1 = { tree := [], lru := [] } ∧
    sampleCachedFile.ref_count = 2 ∧
    (canon_r5_storage_delete_file sampleIndex sampleCachedFile 0 zeroStats
        1).2.2.1.ref_count = 2 := by
  refine ⟨rfl, by decide, rfl, rfl⟩

/-- C6 (amended): on success the object's entry is removed from both the
handle tree and the recency list (its handle is no longer present in either,
given the structures hold each handle at most once), but the file object —
in particular its reference count — is returned untouched: `delete_file`
releases no reference. -/
theorem C6_delete_removes_both_entries (idx : FsIndex) (file : FileObject)
    (ptpRet : Int) (stats : StorageStats) (now : Int)
    (hok : ptpRet = 0) (ht : idx.tree.Nodup) (hl : idx.lru.Nodup) :
    (canon_r5_storage_delete_file idx file ptpRet stats now).1 = 0 ∧
    file.object_handle ∉
      (canon_r5_storage_delete_file idx file ptpRet stats now).2.1.tree ∧
    file.object_handle ∉
      (canon_r5_storage_delete_file idx file ptpRet stats now).2.1.lru ∧
    (canon_r5_storage_delete_file idx file ptpRet stats now).2.2.1
      = file := by
  subst hok
  unfold canon_r5_storage_delete_file
  exact ⟨rfl, ht.not_mem_erase, hl.not_mem_erase, rfl⟩

/-- Witness for `C6_delete_removes_both_entries` at `sampleIndex` and
`sampleCachedFile`. -/
theorem C6_delete_removes_both_entries_witness :
    (canon_r5_storage_delete_file sampleIndex sampleCachedFile 0 zeroStats
        1).1 = 0 ∧
    sampleCachedFile.object_handle ∉
      (canon_r5_storage_delete_file sampleIndex sampleCachedFile 0 zeroStats
        1).2.1.tree ∧
    sampleCachedFile.object_handle ∉
      (canon_r5_storage_delete_file sampleIndex sampleCachedFile 0 zeroStats
        1).2.1.lru ∧
    (canon_r5_storage_delete_file sampleIndex sampleCachedFile 0 zeroStats
        1).2.2.1 = sampleCachedFile :=
  C6_delete_removes_both_entries sampleIndex sampleCachedFile 0 zeroStats 1
    rfl (by decide) (by decide)

/-! ### Background cache cleanup (canon-r5-storage.c lines 392-414) -/

/-- The cache bookkeeping of `struct canon_r5_fs_info` that the cleanup task
touches: the file objects on the `lru_list` it traverses and the
`cache.total_size` counter. -/
structure FsCacheState where
  files : List FileObject
  total_size : Nat
  deriving DecidableEq

/-- The loop body of `canon_r5_storage_cache_cleanup_work` for one list
entry: for a cached entry whose modification time is before the staleness
cutoff and whose buffer is present, the buffer is freed, `cache_size` is set
to 0 and `cached` cleared, and then — after that zeroing — the entry's
`cache_size` is subtracted from `total_size`, exactly in the order the C
code performs these writes. -/
def cacheCleanupStep (cutoff : Int) (acc : List FileObject × Nat)
    (f : FileObject) : List FileObject × Nat :=
  if f.cached ∧ f.modification_time < cutoff then
    if f.cache_data.isSome then
      let f1 : FileObject :=
        { f with
          cache_data := none
          cache_size := 0
          cached := false }
      (acc.1 ++ [f1], acc.2 - f1.cache_size)
    else (acc.1 ++ [f], acc.2)
  else (acc.1 ++ [f], acc.2)

/-- `canon_r5_storage_cache_cleanup_work`: one pass of the background
cleanup task over the recency list, with `cutoff` = now minus
`CANON_R5_CACHE_TIMEOUT`. -/
def canon_r5_storage_cache_cleanup_work (cutoff : Int) (st : FsCacheState) :
    FsCacheState :=
  let r := st.files.foldl (cacheCleanupStep cutoff) ([], st.total_size)
  { files := r.1, total_size := r.2 }

/-- The net per-entry effect of one cleanup pass: stale cached entries with
a buffer lose the buffer, their `cache_size` and their `cached` flag. -/
def cacheCleanFn (cutoff : Int) (f : FileObject) : FileObject :=
  if f.cached ∧ f.modification_time < cutoff ∧ f.cache_data.isSome then
    { f with
      cache_data := none
      cache_size := 0
      cached := false }
  else f

lemma cacheCleanup_foldl (cutoff : Int) (l : List FileObject)
    (acc : List FileObject) (t : Nat) :
    l.foldl (cacheCleanupStep cutoff) (acc, t)
      = (acc ++ l.map (cacheCleanFn cutoff), t) := by
  induction l generalizing acc with
  | nil => simp
  | cons f rest ih =>
      have hstep : cacheCleanupStep cutoff (acc, t) f
          = (acc ++ [cacheCleanFn cutoff f], t) := by
        unfold cacheCleanupStep cacheCleanFn
        by_cases h1 : f.cached = true ∧ f.modification_time < cutoff
        · by_cases h2 : f.cache_data.isSome = true
          · rw [if_pos h1, if_pos h2, if_pos ⟨h1.1, h1.2, h2⟩]
            rfl
          · rw [if_pos h1, if_neg h2, if_neg (fun hc => h2 hc.2.2)]
        · rw [if_neg h1, if_neg (fun hc => h1 ⟨hc.1, hc.2.1⟩)]
      rw [List.foldl_cons, hstep, ih, List.map_cons]
      simp [List.append_assoc]

/-- C10: one run of the background cache-cleanup task leaves the cache's
`total_size` counter exactly unchanged, even while it frees each stale
cached entry's buffer and clears its flag: the loop zeroes the entry's
`cache_size` field before subtracting it from `total_size`, so every
subtraction is by zero. -/
theorem C10_cleanup_total_size_unchanged (cutoff : Int) (st : FsCacheState) :
    (canon_r5_storage_cache_cleanup_work cutoff st).total_size
      = st.total_size ∧
    (canon_r5_storage_cache_cleanup_work cutoff st).files
      = st.files.map (cacheCleanFn cutoff) := by
  unfold canon_r5_storage_cache_cleanup_work
  rw [cacheCleanup_foldl]
  exact ⟨rfl, by simp⟩

/-! ### LRU content cache (`canon_r5_storage_cache_file`) -/

/-- `CANON_R5_CACHE_MAX_SIZE`: the configured cache budget, 64 MiB
(canon-r5-storage.c line 45). -/
def CANON_R5_CACHE_MAX_SIZE : Nat := 64 * 1024 * 1024

/-- Modelled from the spec: `canon_r5_storage_cache_file` is declared in the
storage header (src/unnamed/part_003 lines 285-286) but its implementation
is not among the sources under src/.  The cache bookkeeping it manipulates:
the recency list as (object handle, cached byte count) pairs, most recently
cached/accessed first, the total cached-bytes counter, and the configured
budget (`cache.max_size`, set by `canon_r5_fs_fill_super`). -/
structure LruCache where
  lru : List (Nat × Nat)
  total_size : Nat
  max_size : Nat
  deriving DecidableEq

/-- Modelled from the spec: the eviction loop of `cache(object)`, presented
over the recency list oldest-first — while the running total exceeds the
budget, the oldest entry is evicted (buffer freed, cached flag cleared, so
it leaves the recency list) and its byte count subtracted from the total. -/
def evictOldest : List (Nat × Nat) → Nat → Nat → List (Nat × Nat) × Nat
  | [], total, _ => ([], total)
  | e :: rest, total, budget =>
    if total ≤ budget then (e :: rest, total)
    else evictOldest rest (total - e.2) budget

/-- Modelled from the spec: `cache(object)` "reads the full object into a
newly allocated buffer, inserts into the recency list, increases total
cached-bytes counter; if the counter would exceed the configured budget,
evicts from the tail of the recency list (oldest-accessed-first) until
under budget, freeing each evicted object's buffer and clearing its cached
flag — index entries themselves are not removed by eviction."  The new
entry goes to the head of the recency list; eviction works on the reversed
(oldest-first) list. -/
def canon_r5_storage_cache_file (st : LruCache) (handle size : Nat) :
    LruCache :=
  let lru1 := (handle, size) :: st.lru
  let r := evictOldest lru1.reverse (st.total_size + size) st.max_size
  { st with lru := r.1.reverse, total_size := r.2 }

/-- The cache state established by `canon_r5_fs_fill_super`
(canon-r5-filesystem.c lines 571-580): empty recency list, zero total,
budget `max_size` (the driver uses `CANON_R5_CACHE_MAX_SIZE`). -/
def initLruCache (budget : Nat) : LruCache :=
  { lru := [], total_size := 0, max_size := budget }

/-- Total cached bytes held by the entries of a recency list. -/
def lruBytes (l : List (Nat × Nat)) : Nat := (l.map Prod.snd).sum

/-- The cache state after a sequence of `cache(object)` calls, each given as
a (handle, byte count) pair, starting from the freshly mounted state. -/
def runCacheOps (budget : Nat) (ops : List (Nat × Nat)) : LruCache :=
  ops.foldl (fun st p => canon_r5_storage_cache_file st p.1 p.2)
    (initLruCache budget)

lemma evictOldest_drop (budget : Nat) :
    ∀ (l : List (Nat × Nat)) (total : Nat),
      ∃ k, (evictOldest l total budget).1 = l.drop k := by
  intro l
  induction l with
  | nil => intro total; exact ⟨0, rfl⟩
  | cons e rest ih =>
      intro total
      unfold evictOldest
      by_cases hb : total ≤ budget
      · rw [if_pos hb]
        exact ⟨0, rfl⟩
      · rw [if_neg hb]
        obtain ⟨k, hk⟩ := ih (total - e.2)
        exact ⟨k + 1, by simpa using hk⟩

lemma evictOldest_sum (budget : Nat) :
    ∀ (l : List (Nat × Nat)) (total : Nat), total = lruBytes l →
      (evictOldest l total budget).2
          = lruBytes (evictOldest l total budget).1 ∧
      (evictOldest l total budget).2 ≤ budget := by
  intro l
  induction l with
  | nil =>
      intro total ht
      have h0 : total = 0 := by simpa [lruBytes] using ht
      exact ⟨by simpa [evictOldest, lruBytes] using ht,
        by simp [evictOldest, h0]⟩
  | cons e rest ih =>
      intro total ht
      unfold evictOldest
      by_cases hb : total ≤ budget
      · rw [if_pos hb]
        exact ⟨ht, hb⟩
      · rw [if_neg hb]
        refine ih (total - e.2) ?_
        simp only [lruBytes, List.map_cons, List.sum_cons] at ht
        simp only [lruBytes]
        omega

lemma cache_file_invariant (st : LruCache) (handle size : Nat)
    (h : st.total_size = lruBytes st.lru) :
    (canon_r5_storage_cache_file st handle size).total_size
      = lruBytes (canon_r5_storage_cache_file st handle size).lru ∧
    (canon_r5_storage_cache_file st handle size).total_size ≤ st.max_size ∧
    (canon_r5_storage_cache_file st handle size).max_size = st.max_size := by
  have hrev : st.total_size + size
      = lruBytes (((handle, size) :: st.lru).reverse) := by
    rw [h]
    simp only [lruBytes, List.map_reverse, List.sum_reverse, List.map_cons,
      List.sum_cons]
    omega
  obtain ⟨h1, h2⟩ := evictOldest_sum st.max_size
    (((handle, size) :: st.lru).reverse) (st.total_size + size) hrev
  unfold canon_r5_storage_cache_file
  refine ⟨?_, h2, rfl⟩
  show (evictOldest (((handle, size) :: st.lru).reverse)
      (st.total_size + size) st.max_size).2
    = lruBytes (evictOldest (((handle, size) :: st.lru).reverse)
      (st.total_size + size) st.max_size).1.reverse
  rw [h1]
  simp [lruBytes, List.map_reverse, List.sum_reverse]

lemma runCacheOps_invariant (budget : Nat) (ops : List (Nat × Nat)) :
    (runCacheOps budget ops).total_size
      = lruBytes (runCacheOps budget ops).lru ∧
    (runCacheOps budget ops).total_size ≤ budget ∧
    (runCacheOps budget ops).max_size = budget := by
  induction ops using List.reverseRecOn with
  | nil => exact ⟨rfl, Nat.zero_le _, rfl⟩
  | append_singleton ops p ih =>
      have hrun : runCacheOps budget (ops ++ [p])
          = canon_r5_storage_cache_file (runCacheOps budget ops) p.1 p.2 := by
        unfold runCacheOps
        rw [List.foldl_append]
        rfl
      obtain ⟨i1, _, i3⟩ := ih
      obtain ⟨j1, j2, j3⟩ :=
        cache_file_invariant (runCacheOps budget ops) p.1 p.2 i1
      rw [hrun]
      refine ⟨j1, ?_, ?_⟩
      · calc (canon_r5_storage_cache_file (runCacheOps budget ops) p.1
              p.2).total_size
            ≤ (runCacheOps budget ops).max_size := j2
          _ = budget := i3
      · rw [j3, i3]

lemma cache_file_take (st : LruCache) (handle size : Nat) :
    ∃ k, (canon_r5_storage_cache_file st handle size).lru
      = ((handle, size) :: st.lru).take k := by
  obtain ⟨k, hk⟩ := evictOldest_drop st.max_size
    (((handle, size) :: st.lru).reverse) (st.total_size + size)
  refine ⟨((handle, size) :: st.lru).length - k, ?_⟩
  show (evictOldest (((handle, size) :: st.lru).reverse)
      (st.total_size + size) st.max_size).1.reverse = _
  rw [hk, ← List.rdrop_eq_reverse_drop_reverse]
  rfl

/-- C9: after any sequence of `cache(object)` calls from the freshly mounted
cache state, the total cached bytes across all objects (the sum over the
recency list, which equals the maintained counter) never exceeds the
configured budget; and each `cache` call evicts only from the tail of the
recency list, oldest-accessed-first: the surviving entries are an initial
segment of the most-recent-first list headed by the newly cached object, so
the most recently cached/accessed object is never evicted while an older
one remains cached. -/
theorem C9_cache_budget_and_eviction_order (budget : Nat)
    (ops : List (Nat × Nat)) (handle size : Nat) :
    (runCacheOps budget ops).total_size
      = lruBytes (runCacheOps budget ops).lru ∧
    (runCacheOps budget ops).total_size ≤ budget ∧
    ∃ k, (canon_r5_storage_cache_file (runCacheOps budget ops) handle
          size).lru
        = ((handle, size) :: (runCacheOps budget ops).lru).take k := by
  obtain ⟨i1, i2, _⟩ := runCacheOps_invariant budget ops
  exact ⟨i1, i2, cache_file_take (runCacheOps budget ops) handle size⟩

/-- A transport whose exchange succeeds but whose response container carries
transaction id 5, regardless of what was sent. -/
def badTransport : PtpTransport :=
  { sendRes := fun _ => 0, recvRes := 0, recvLen := 32,
    recvCont := { length := 12, ctype := PTP_CONTAINER_RESPONSE,
                  code := PTP_RC_OK, trans_id := 5, params := [] } }

/-- Witness for `C3_framing_error_fatal`: an open-session command on a fresh
device (which sends transaction id 1) answered by `badTransport`
(transaction id 5). -/
theorem C3_framing_error_fatal_witness :
    (canon_r5_ptp_command initPtpState badTransport PTP_OP_OPEN_SESSION
        [1] 1 false 0).ret = -EPROTO ∧
    (canon_r5_ptp_command initPtpState badTransport PTP_OP_OPEN_SESSION
        [1] 1 false 0).responseCode = none ∧
    (canon_r5_ptp_command initPtpState badTransport PTP_OP_OPEN_SESSION
        [1] 1 false 0).trace = [PtpEvent.send, PtpEvent.recv] := by
  have h := C3_framing_error_fatal initPtpState badTransport
    PTP_OP_OPEN_SESSION [1] 1 false 0 (Or.inr rfl) (fun _ => rfl) rfl
    (Or.inr (Or.inr (by decide)))
  simpa using h
